import Mathlib

/-!
Shallow embedding of `src/train.py` from `agustin-v/image_classifier`.

The script parses command-line flags, assembles a pretrained backbone with a
fresh classification head, trains the head with an Adam optimizer, runs a
periodic validation pass every 10 global steps, and finally writes a
checkpoint file.

External numerics (the convolutional forward pass, autograd, the Adam update
rule) belong to the torch library, not to this repository; they are
abstracted as function parameters (`fwd`, `rexp`, `adam`).  Everything the
script itself does — control flow, counters, accumulation, selection,
checkpoint contents, filesystem targets — is embedded faithfully.
-/

namespace Train

/-- A Python value as it flows through `argparse` and the script: argparse
without a `type=` keyword stores command-line values as strings, while the
declared defaults keep their literal Python types (float `0.001`,
int `512`, int `5`). -/
inductive PyVal where
  | str (s : String)
  | int (n : Int)
  | float (q : ℚ)
deriving DecidableEq, Repr

/-- The numeric value of a decimal digit character, `none` otherwise. -/
def decDigit (c : Char) : Option Nat :=
  if 48 ≤ c.toNat ∧ c.toNat ≤ 57 then some (c.toNat - 48) else none

/-- Base-10 reading of a nonempty digit string. -/
def natOfDigits (cs : List Char) : Option Nat :=
  match cs with
  | [] => none
  | _ =>
    cs.foldl (fun acc c =>
      match acc, decDigit c with
      | some n, some d => some (n * 10 + d)
      | _, _ => none) (some 0)

/-- Python `int(...)` applied to a string: an optional sign followed by
decimal digits; `none` models the `ValueError` raised otherwise. -/
def strToInt (s : String) : Option Int :=
  match s.data with
  | '-' :: rest => (natOfDigits rest).map fun n => -(n : Int)
  | '+' :: rest => (natOfDigits rest).map fun n => (n : Int)
  | l => (natOfDigits l).map fun n => (n : Int)

/-- Python `int(...)` applied to a `PyVal`: identity on ints, truncation
toward zero on floats, base-10 parse on strings (`none` models the
`ValueError` raised on a non-numeric string). -/
def pyInt : PyVal → Option Int
  | .int n => some n
  | .float q => some (q.num.tdiv (q.den : Int))
  | .str s => strToInt s

/-- The command line handed to `get_arguments`: for each optional flag,
`some s` means the flag was supplied with raw text `s`, `none` means it was
absent (so the default applies).  `--gpu` is `store_true`. -/
structure CliInput where
  save_dir_arg : Option String
  model_arg : Option String
  lr_arg : Option String
  hidden_units_arg : Option String
  epochs_arg : Option String
  gpu_arg : Bool
  data_path_arg : String
deriving DecidableEq, Repr

/-- The parsed namespace produced by `get_arguments` (train.py lines
95-106). -/
structure Args where
  save_dir : String
  model : String
  lr : PyVal
  hidden_units : PyVal
  epochs : PyVal
  cuda : Bool
  data_path : String
deriving DecidableEq, Repr

/-- A supplied flag is stored as its raw string; an absent flag falls back
to the declared default (argparse declares no `type=`, so no conversion
happens at parse time). -/
def storeArg (supplied : Option String) (default : PyVal) : PyVal :=
  match supplied with
  | some s => .str s
  | none => default

/-- `get_arguments` (train.py lines 95-106): defaults are
`save_dir="."`, `model="densenet121"`, `lr=0.001`, `hidden_units=512`,
`epochs=5`, `gpu=False`. -/
def get_arguments (cli : CliInput) : Args :=
  { save_dir := (cli.save_dir_arg).getD "."
    model := (cli.model_arg).getD "densenet121"
    lr := storeArg cli.lr_arg (.float (1 / 1000))
    hidden_units := storeArg cli.hidden_units_arg (.int 512)
    epochs := storeArg cli.epochs_arg (.int 5)
    cuda := cli.gpu_arg
    data_path := cli.data_path_arg }

/-- A model parameter: its (abstracted, rational) value together with the
`requires_grad` autograd flag. -/
structure Param where
  value : ℚ
  requires_grad : Bool
deriving DecidableEq, Repr

/-- The assembled network: the frozen pretrained part and the classification
head attached as `model.classifier`. -/
structure TorchModel where
  backbone : List Param
  classifier : List Param
deriving DecidableEq, Repr

/-- `for param in model.parameters(): param.requires_grad = False`
(train.py lines 38-39 and 54-55). -/
def freezeAll (ps : List Param) : List Param :=
  ps.map fun p => { p with requires_grad := false }

/-- The `if args.model == densenet121 / elif vgg19` chain (train.py lines
34-64): it binds the local names `model` (pretrained weights, all frozen)
and `classifier` (the fresh head), or binds neither when the name is
unrecognized.  The pretrained weight lists and the freshly initialized head
weights come from the torch library and are taken as inputs. -/
def selectModelAndClassifier (name : String)
    (densenetPre vggPre dHead vHead : List Param) :
    Option (List Param) × Option (List Param) :=
  if name = "densenet121" then (some (freezeAll densenetPre), some dHead)
  else if name = "vgg19" then (some (freezeAll vggPre), some vHead)
  else (none, none)

/-- `input_layers` as set by the selection chain (1024 for densenet121,
25088 for vgg19, left `None` otherwise). -/
def inputLayersFor (name : String) : Option Nat :=
  if name = "densenet121" then some 1024
  else if name = "vgg19" then some 25088
  else none

/-- `output_size` as set by the selection chain (102 for both supported
backbones, left `None` otherwise). -/
def outputSizeFor (name : String) : Option Nat :=
  if name = "densenet121" then some 102
  else if name = "vgg19" then some 102
  else none

/-- An unhandled Python exception, tagged with the name/value that raised
it. -/
inductive PyError where
  | nameError (missing : String)
  | valueError (what : String)
deriving DecidableEq, Repr

/-- `model.classifier = classifier` (train.py line 66): the first statement
that uses the names bound by the selection chain.  When neither branch ran,
both names are unbound and the statement raises `NameError` (the right-hand
side `classifier` is evaluated first). -/
def attachClassifier :
    Option (List Param) × Option (List Param) → Except PyError TorchModel
  | (some bb, some cl) => .ok { backbone := bb, classifier := cl }
  | _ => .error (.nameError "classifier")

/-- One labelled training/validation example: an opaque image identifier
plus its integer class label.  The pixel data itself is external. -/
structure Sample where
  image : Nat
  label : Nat
deriving DecidableEq, Repr

/-- `criterion = nn.NLLLoss()` applied to the forward output of a batch
(train.py lines 72 and 161): the negated mean, over the batch, of the
output entry at each sample's label.  `fwd m i` is the model's output
vector (log-probabilities) for image `i`; the network forward pass itself
is external and abstracted. -/
def nllLoss (fwd : TorchModel → Nat → List ℚ) (m : TorchModel)
    (b : List Sample) : ℚ :=
  -(((b.map fun s => (fwd m s.image).getD s.label 0).sum) / (b.length : ℚ))

/-- Index of the first maximal entry, as returned by `ps.max(1)[1]`
(train.py line 185). -/
def argmaxIdx : List ℚ → Nat
  | [] => 0
  | [_] => 0
  | x :: y :: rest =>
    let j := argmaxIdx (y :: rest)
    if x < (y :: rest).getD j y then j + 1 else 0

/-- `equality = (labels.data == ps.max(1)[1])` followed by `.mean()`
(train.py lines 184-186), for one validation batch: the fraction of
samples whose label equals the arg-max of `torch.exp(output)`.  `rexp`
abstracts the real-valued `torch.exp` on the rationals that occur. -/
def batchEqualityMean (fwd : TorchModel → Nat → List ℚ) (rexp : ℚ → ℚ)
    (m : TorchModel) (b : List Sample) : ℚ :=
  ((b.filter fun s =>
      s.label = argmaxIdx ((fwd m s.image).map rexp)).length : ℚ) /
    (b.length : ℚ)

/-- The validation pass (train.py lines 170-186 and the two printed
quotients on lines 191-192): fold over the validation loader accumulating
`validation_loss` and `accuracy`, then divide both by `len(dataloaders[1])`
(the number of batches).  Returns (mean validation loss, accuracy). -/
def validationPassStats (fwd : TorchModel → Nat → List ℚ) (rexp : ℚ → ℚ)
    (m : TorchModel) (valBatches : List (List Sample)) : ℚ × ℚ :=
  let t := valBatches.foldl
    (fun a b =>
      (a.1 + nllLoss fwd m b, a.2 + batchEqualityMean fwd rexp m b))
    (0, 0)
  (t.1 / (valBatches.length : ℚ), t.2 / (valBatches.length : ℚ))

/-- Observable events of the training loop, in program order. -/
inductive Ev where
  | zeroGrad
  | forward
  | lossCompute (l : ℚ)
  | backward
  | stepClassifier
  | accumulate (l : ℚ)
  | validationPass (valLoss valAcc : ℚ)
  | printStats (epoch epochsTotal : Nat) (trainLoss valLoss valAcc : ℚ)
  | resetRunningLoss
deriving DecidableEq, Repr

/-- The mutable loop state of `train_model`: the global step counter, the
running training loss, and the model being updated in place. -/
structure TrainState where
  steps : Nat
  running_loss : ℚ
  model : TorchModel
deriving DecidableEq, Repr

/-- `optimizer.step()` writes new values into the parameters the optimizer
was constructed over, leaving their autograd flags alone. -/
def adamApply (cl : List Param) (vals : List ℚ) : List Param :=
  List.zipWith (fun p v => { p with value := v }) cl vals

/-- The body of the inner batch loop (train.py lines 152-195): increment
`steps`, zero gradients, forward, NLL loss, backward, one optimizer step,
accumulate the running loss; then, exactly when `steps % print_every == 0`
(`print_every = 10`, line 141), run the validation pass, print the stats
line (training loss divided by the constant `print_every`), and reset the
running loss.  The optimizer was built over `model.classifier.parameters()`
only (line 73), so its step rewrites the classifier and nothing else;
`adam` abstracts the Adam update numerics (new classifier values from the
step count, current model and batch). -/
def batchStep (fwd : TorchModel → Nat → List ℚ) (rexp : ℚ → ℚ)
    (adam : Nat → TorchModel → List Sample → List ℚ)
    (valBatches : List (List Sample)) (e epochsTotal : Nat)
    (s : TrainState) (b : List Sample) : TrainState × List Ev :=
  let steps1 := s.steps + 1
  let loss := nllLoss fwd s.model b
  let m1 : TorchModel :=
    { s.model with
      classifier := adamApply s.model.classifier (adam steps1 s.model b) }
  let rl := s.running_loss + loss
  let baseEvs := [Ev.zeroGrad, Ev.forward, Ev.lossCompute loss, Ev.backward,
    Ev.stepClassifier, Ev.accumulate loss]
  if steps1 % 10 = 0 then
    let vs := validationPassStats fwd rexp m1 valBatches
    ({ steps := steps1, running_loss := 0, model := m1 },
      baseEvs ++ [Ev.validationPass vs.1 vs.2,
        Ev.printStats (e + 1) epochsTotal (rl / 10) vs.1 vs.2,
        Ev.resetRunningLoss])
  else
    ({ steps := steps1, running_loss := rl, model := m1 }, baseEvs)

/-- One epoch (train.py lines 150-195): set `running_loss = 0`, then run
the batch loop over every training batch of this epoch. -/
def runEpoch (fwd : TorchModel → Nat → List ℚ) (rexp : ℚ → ℚ)
    (adam : Nat → TorchModel → List Sample → List ℚ)
    (valBatches : List (List Sample)) (e epochsTotal : Nat)
    (s : TrainState) (bs : List (List Sample)) : TrainState × List Ev :=
  bs.foldl
    (fun a b =>
      ((batchStep fwd rexp adam valBatches e epochsTotal a.1 b).1,
       a.2 ++ (batchStep fwd rexp adam valBatches e epochsTotal a.1 b).2))
    ({ s with running_loss := 0 }, [])

/-- `train_model` (train.py lines 138-198): `steps = 0` once before the
epoch loop, then `for e in range(epochs)` over the per-epoch training
batches (`epochBatches e` — the loader reshuffles each epoch).  Returns the
trained model and the event trace. -/
def train_model (fwd : TorchModel → Nat → List ℚ) (rexp : ℚ → ℚ)
    (adam : Nat → TorchModel → List Sample → List ℚ)
    (epochBatches : Nat → List (List Sample))
    (valBatches : List (List Sample))
    (m : TorchModel) (epochs : Nat) : TorchModel × List Ev :=
  let r := (List.range epochs).foldl
    (fun a e =>
      ((runEpoch fwd rexp adam valBatches e epochs a.1 (epochBatches e)).1,
       a.2 ++ (runEpoch fwd rexp adam valBatches e epochs a.1
         (epochBatches e)).2))
    (⟨0, 0, m⟩, [])
  (r.1.model, r.2)

/-- `os.path.join(save_dir, 'checkpoint.pth')` (train.py line 32) for the
relative second component used here. -/
def joinPath (a b : String) : String :=
  if a = "" then b
  else if a.data.getLast? = some '/' then a ++ b
  else a ++ "/" ++ b

/-- A filesystem side effect performed by `main`, in order. -/
inductive FsEffect where
  | makedirs (path : String)
  | saveFile (path : String)
deriving DecidableEq, Repr

/-- The checkpoint dictionary assembled on train.py lines 79-90.  The
torch-opaque entries (`data_transforms`, the optimizer moment state, the
redundant `state_dict` view of the model weights) carry no content of their
own in this embedding; `model` and `classifier` carry the weights. -/
structure Checkpoint where
  input_size : Option Nat
  output_size : Option Nat
  epochs : PyVal
  learning_rate : PyVal
  batch_size : Nat
  model : TorchModel
  classifier : List Param
  class_to_idx : List (String × Nat)
deriving DecidableEq, Repr

/-- What a successful `main` leaves behind: the (unused) joined path bound
to the local `save_dir` on line 32, the raw value handed to the Adam
constructor as `lr=` (line 73), the training event trace, the checkpoint
dictionary, and the ordered filesystem effects. -/
structure MainResult where
  savePathVar : String
  optimizerLr : PyVal
  trace : List Ev
  checkpoint : Checkpoint
  effects : List FsEffect
deriving DecidableEq, Repr

/-- `main` (train.py lines 26-92).  In source order: create `args.save_dir`
if absent (lines 30-31) and compute the joined path (line 32); run the
backbone selection chain and attach the classifier (lines 34-66, a
`NameError` for unrecognized names); build the optimizer over
`model.classifier.parameters()` with the raw `args.lr` (line 73); call
`train_model` with `int(args.epochs)` (line 75, a `ValueError` when the
raw value does not parse); assemble the checkpoint dictionary (lines
79-90); and `torch.save(checkpoint, 'checkpoint.pth')` with the literal
filename (line 92).  Dataset loading (line 67) is external; its
`class_to_idx` mapping and the per-epoch batches are inputs. -/
def mainRun (fwd : TorchModel → Nat → List ℚ) (rexp : ℚ → ℚ)
    (adam : Nat → TorchModel → List Sample → List ℚ)
    (args : Args) (dirExists : Bool)
    (densenetPre vggPre dHead vHead : List Param)
    (classToIdx : List (String × Nat))
    (epochBatches : Nat → List (List Sample))
    (valBatches : List (List Sample)) : Except PyError MainResult :=
  let fsPre : List FsEffect :=
    if dirExists then [] else [.makedirs args.save_dir]
  let savePathVar := joinPath args.save_dir "checkpoint.pth"
  match attachClassifier
      (selectModelAndClassifier args.model densenetPre vggPre dHead vHead) with
  | .error err => .error err
  | .ok model =>
    match pyInt args.epochs with
    | none => .error (.valueError "epochs")
    | some n =>
      let tr := train_model fwd rexp adam epochBatches valBatches model n.toNat
      .ok
        { savePathVar := savePathVar
          optimizerLr := args.lr
          trace := tr.2
          checkpoint :=
            { input_size := inputLayersFor args.model
              output_size := outputSizeFor args.model
              epochs := args.epochs
              learning_rate := args.lr
              batch_size := 64
              model := tr.1
              classifier := tr.1.classifier
              class_to_idx := classToIdx }
          effects := fsPre ++ [.saveFile "checkpoint.pth"] }

/-! ## Concrete fixtures (used by the witness theorems) -/

/-- A trivial forward function: every image maps to the empty score
vector. -/
def fwd0 : TorchModel → Nat → List ℚ := fun _ _ => []

/-- A trivial stand-in for `torch.exp`. -/
def rexp0 : ℚ → ℚ := fun q => q

/-- A trivial Adam update producing no new values. -/
def adam0 : Nat → TorchModel → List Sample → List ℚ := fun _ _ _ => []

/-- An empty training loader for every epoch. -/
def eb0 : Nat → List (List Sample) := fun _ => []

/-- The default configuration of the script. -/
def args0 : Args :=
  ⟨".", "densenet121", .float (1 / 1000), .int 512, .int 5, false, "flowers"⟩

/-- The model assembled from one pretrained parameter and a one-parameter
head. -/
def m0fix : TorchModel := ⟨[⟨1, false⟩], [⟨2, true⟩]⟩

/-- The result of the default run on the trivial fixtures. -/
def r1fix : MainResult :=
  ⟨"./checkpoint.pth", .float (1 / 1000), [],
    ⟨some 1024, some 102, .int 5, .float (1 / 1000), 64, m0fix,
      [⟨2, true⟩], []⟩,
    [.saveFile "checkpoint.pth"]⟩

/-- The result of the run with `--epochs` forced to 0. -/
def r6fix : MainResult :=
  ⟨"./checkpoint.pth", .float (1 / 1000), [],
    ⟨some 1024, some 102, .int 0, .float (1 / 1000), 64, m0fix,
      [⟨2, true⟩], []⟩,
    [.saveFile "checkpoint.pth"]⟩

/-- A command line supplying string values for the three numeric flags. -/
def cliA : CliInput := ⟨none, none, some "0.01", some "256", some "1", false,
  "flowers"⟩

/-! ## Helper lemmas -/

theorem joinPath_ne_checkpoint (d : String) (hd : d ≠ "") :
    joinPath d "checkpoint.pth" ≠ "checkpoint.pth" := by
  intro h
  unfold joinPath at h
  rw [if_neg hd] at h
  by_cases he : d.data.getLast? = some '/'
  · rw [if_pos he] at h
    have h2 := congrArg String.data h
    rw [String.data_append d "checkpoint.pth"] at h2
    exact hd (String.ext (List.append_left_eq_self.mp h2))
  · rw [if_neg he] at h
    have h2 := congrArg String.data h
    rw [String.data_append (d ++ "/") "checkpoint.pth"] at h2
    have h3 := List.append_left_eq_self.mp h2
    rw [String.data_append d "/"] at h3
    simp at h3

/-! ## Claim theorems -/

/-- C1: every run that completes training writes its checkpoint to the
fixed filename `checkpoint.pth` in the current working directory, whatever
`--save_dir` holds; the configured directory is created when absent and the
joined path `save_dir/checkpoint.pth` is computed, but (for any non-empty
`save_dir`) that joined path is never the write target. -/
theorem C1_checkpoint_written_to_cwd
    (fwd : TorchModel → Nat → List ℚ) (rexp : ℚ → ℚ)
    (adam : Nat → TorchModel → List Sample → List ℚ)
    (args : Args) (dirExists : Bool)
    (densenetPre vggPre dHead vHead : List Param)
    (classToIdx : List (String × Nat))
    (epochBatches : Nat → List (List Sample))
    (valBatches : List (List Sample)) (r : MainResult)
    (h : mainRun fwd rexp adam args dirExists densenetPre vggPre dHead vHead
      classToIdx epochBatches valBatches = .ok r) :
    r.effects = (if dirExists then [] else [FsEffect.makedirs args.save_dir])
        ++ [FsEffect.saveFile "checkpoint.pth"]
    ∧ r.savePathVar = joinPath args.save_dir "checkpoint.pth"
    ∧ (args.save_dir ≠ "" → r.savePathVar ≠ "checkpoint.pth")
    ∧ (∀ p, FsEffect.saveFile p ∈ r.effects → p = "checkpoint.pth") := by
  unfold mainRun at h
  cases hA : attachClassifier
      (selectModelAndClassifier args.model densenetPre vggPre dHead vHead) with
  | error err => rw [hA] at h; exact absurd h (by simp)
  | ok model =>
    rw [hA] at h
    cases hE : pyInt args.epochs with
    | none => rw [hE] at h; exact absurd h (by simp)
    | some n =>
      rw [hE] at h
      simp only [Except.ok.injEq] at h
      subst h
      refine ⟨rfl, rfl, fun hne => joinPath_ne_checkpoint _ hne, ?_⟩
      intro p hp
      cases dirExists <;> simp_all

/-- C4: any `--model` value other than `densenet121` or `vgg19` leaves both
the local `model` and `classifier` names unbound, and the run fails with a
`NameError` raised by the statement `model.classifier = classifier` — the
first use of the unbound names — while the selection chain itself completes
without error. -/
theorem C4_unsupported_backbone_name_error
    (fwd : TorchModel → Nat → List ℚ) (rexp : ℚ → ℚ)
    (adam : Nat → TorchModel → List Sample → List ℚ)
    (args : Args) (dirExists : Bool)
    (densenetPre vggPre dHead vHead : List Param)
    (classToIdx : List (String × Nat))
    (epochBatches : Nat → List (List Sample))
    (valBatches : List (List Sample))
    (h1 : args.model ≠ "densenet121") (h2 : args.model ≠ "vgg19") :
    selectModelAndClassifier args.model densenetPre vggPre dHead vHead
      = (none, none)
    ∧ attachClassifier (none, none) = .error (.nameError "classifier")
    ∧ mainRun fwd rexp adam args dirExists densenetPre vggPre dHead vHead
        classToIdx epochBatches valBatches
      = .error (.nameError "classifier") := by
  have hs : selectModelAndClassifier args.model densenetPre vggPre dHead vHead
      = (none, none) := by
    unfold selectModelAndClassifier
    rw [if_neg h1, if_neg h2]
  refine ⟨hs, rfl, ?_⟩
  unfold mainRun
  rw [hs]
  rfl

/-- C5: every training batch performs, in program order, gradient zeroing,
a forward pass, the NLL loss computation, backpropagation, one optimizer
step that rewrites only the classifier head (the backbone field is carried
over unchanged), and the addition of the batch loss onto the running
loss. -/
theorem C5_per_batch_order
    (fwd : TorchModel → Nat → List ℚ) (rexp : ℚ → ℚ)
    (adam : Nat → TorchModel → List Sample → List ℚ)
    (valBatches : List (List Sample)) (e epochsTotal : Nat)
    (s : TrainState) (b : List Sample) :
    ((batchStep fwd rexp adam valBatches e epochsTotal s b).2.take 6 =
      [Ev.zeroGrad, Ev.forward, Ev.lossCompute (nllLoss fwd s.model b),
       Ev.backward, Ev.stepClassifier, Ev.accumulate (nllLoss fwd s.model b)])
    ∧ (batchStep fwd rexp adam valBatches e epochsTotal s b).1.model =
        { backbone := s.model.backbone,
          classifier :=
            adamApply s.model.classifier (adam (s.steps + 1) s.model b) }
    ∧ (batchStep fwd rexp adam valBatches e epochsTotal s b).1.running_loss =
        (if (s.steps + 1) % 10 = 0 then 0
         else s.running_loss + nllLoss fwd s.model b) := by
  unfold batchStep
  by_cases hc : (s.steps + 1) % 10 = 0 <;> simp [hc]

/-- Recognizer for validation-pass events in a trace. -/
def isValPass : Ev → Bool
  | .validationPass _ _ => true
  | _ => false

/-- Number of validation passes recorded in a trace. -/
def valCount (evs : List Ev) : Nat := (evs.filter isValPass).length

/-- Total number of training batches seen across the first `epochs`
epochs. -/
def totalBatches (epochBatches : Nat → List (List Sample))
    (epochs : Nat) : Nat :=
  ((List.range epochs).map fun e => (epochBatches e).length).sum

theorem valCount_append (a b : List Ev) :
    valCount (a ++ b) = valCount a + valCount b := by
  simp [valCount, List.filter_append]

theorem batchStep_steps
    (fwd : TorchModel → Nat → List ℚ) (rexp : ℚ → ℚ)
    (adam : Nat → TorchModel → List Sample → List ℚ)
    (valBatches : List (List Sample)) (e epochsTotal : Nat)
    (s : TrainState) (b : List Sample) :
    (batchStep fwd rexp adam valBatches e epochsTotal s b).1.steps
      = s.steps + 1 := by
  unfold batchStep
  by_cases hc : (s.steps + 1) % 10 = 0 <;> simp [hc]

theorem batchStep_valCount
    (fwd : TorchModel → Nat → List ℚ) (rexp : ℚ → ℚ)
    (adam : Nat → TorchModel → List Sample → List ℚ)
    (valBatches : List (List Sample)) (e epochsTotal : Nat)
    (s : TrainState) (b : List Sample) :
    valCount (batchStep fwd rexp adam valBatches e epochsTotal s b).2
      = if (s.steps + 1) % 10 = 0 then 1 else 0 := by
  unfold batchStep
  by_cases hc : (s.steps + 1) % 10 = 0 <;> simp [hc, valCount, isValPass]

theorem batchStep_backbone
    (fwd : TorchModel → Nat → List ℚ) (rexp : ℚ → ℚ)
    (adam : Nat → TorchModel → List Sample → List ℚ)
    (valBatches : List (List Sample)) (e epochsTotal : Nat)
    (s : TrainState) (b : List Sample) :
    (batchStep fwd rexp adam valBatches e epochsTotal s b).1.model.backbone
      = s.model.backbone := by
  unfold batchStep
  by_cases hc : (s.steps + 1) % 10 = 0 <;> simp [hc]

/-- Behaviour of the inner batch fold: the step counter advances by one per
batch, the validation passes recorded are exactly the multiples of 10
crossed by the counter, and the backbone field is preserved. -/
theorem batchFold_spec
    (fwd : TorchModel → Nat → List ℚ) (rexp : ℚ → ℚ)
    (adam : Nat → TorchModel → List Sample → List ℚ)
    (valBatches : List (List Sample)) (e epochsTotal : Nat)
    (bs : List (List Sample)) :
    ∀ (s : TrainState) (acc : List Ev),
    (bs.foldl (fun a b =>
        ((batchStep fwd rexp adam valBatches e epochsTotal a.1 b).1,
         a.2 ++ (batchStep fwd rexp adam valBatches e epochsTotal a.1 b).2))
      (s, acc)).1.steps = s.steps + bs.length
    ∧ valCount (bs.foldl (fun a b =>
        ((batchStep fwd rexp adam valBatches e epochsTotal a.1 b).1,
         a.2 ++ (batchStep fwd rexp adam valBatches e epochsTotal a.1 b).2))
      (s, acc)).2
      = valCount acc + ((s.steps + bs.length) / 10 - s.steps / 10)
    ∧ (bs.foldl (fun a b =>
        ((batchStep fwd rexp adam valBatches e epochsTotal a.1 b).1,
         a.2 ++ (batchStep fwd rexp adam valBatches e epochsTotal a.1 b).2))
      (s, acc)).1.model.backbone = s.model.backbone := by
  induction bs with
  | nil => intro s acc; simp
  | cons b bs ih =>
    intro s acc
    simp only [List.foldl_cons]
    obtain ⟨ih1, ih2, ih3⟩ :=
      ih (batchStep fwd rexp adam valBatches e epochsTotal s b).1
        (acc ++ (batchStep fwd rexp adam valBatches e epochsTotal s b).2)
    rw [List.length_cons]
    refine ⟨?_, ?_, ?_⟩
    · rw [ih1, batchStep_steps]
      omega
    · rw [ih2, valCount_append, batchStep_valCount, batchStep_steps]
      by_cases hc : (s.steps + 1) % 10 = 0
      · rw [if_pos hc]; omega
      · rw [if_neg hc]; omega
    · rw [ih3, batchStep_backbone]

theorem runEpoch_spec
    (fwd : TorchModel → Nat → List ℚ) (rexp : ℚ → ℚ)
    (adam : Nat → TorchModel → List Sample → List ℚ)
    (valBatches : List (List Sample)) (e epochsTotal : Nat)
    (s : TrainState) (bs : List (List Sample)) :
    (runEpoch fwd rexp adam valBatches e epochsTotal s bs).1.steps
      = s.steps + bs.length
    ∧ valCount (runEpoch fwd rexp adam valBatches e epochsTotal s bs).2
      = (s.steps + bs.length) / 10 - s.steps / 10
    ∧ (runEpoch fwd rexp adam valBatches e epochsTotal s bs).1.model.backbone
      = s.model.backbone := by
  unfold runEpoch
  obtain ⟨h1, h2, h3⟩ := batchFold_spec fwd rexp adam valBatches e epochsTotal
    bs { s with running_loss := 0 } []
  exact ⟨h1, by simpa [valCount] using h2, h3⟩

/-- Behaviour of the outer epoch fold, over an arbitrary list of epoch
indices. -/
theorem epochFold_spec
    (fwd : TorchModel → Nat → List ℚ) (rexp : ℚ → ℚ)
    (adam : Nat → TorchModel → List Sample → List ℚ)
    (epochBatches : Nat → List (List Sample))
    (valBatches : List (List Sample)) (epochsTotal : Nat)
    (es : List Nat) :
    ∀ (s : TrainState) (acc : List Ev),
    (es.foldl (fun a e =>
        ((runEpoch fwd rexp adam valBatches e epochsTotal a.1
            (epochBatches e)).1,
         a.2 ++ (runEpoch fwd rexp adam valBatches e epochsTotal a.1
            (epochBatches e)).2)) (s, acc)).1.steps
      = s.steps + (es.map fun e => (epochBatches e).length).sum
    ∧ valCount (es.foldl (fun a e =>
        ((runEpoch fwd rexp adam valBatches e epochsTotal a.1
            (epochBatches e)).1,
         a.2 ++ (runEpoch fwd rexp adam valBatches e epochsTotal a.1
            (epochBatches e)).2)) (s, acc)).2
      = valCount acc
        + ((s.steps + (es.map fun e => (epochBatches e).length).sum) / 10
            - s.steps / 10)
    ∧ (es.foldl (fun a e =>
        ((runEpoch fwd rexp adam valBatches e epochsTotal a.1
            (epochBatches e)).1,
         a.2 ++ (runEpoch fwd rexp adam valBatches e epochsTotal a.1
            (epochBatches e)).2)) (s, acc)).1.model.backbone
      = s.model.backbone := by
  induction es with
  | nil => intro s acc; simp
  | cons e es ih =>
    intro s acc
    simp only [List.foldl_cons, List.map_cons, List.sum_cons]
    obtain ⟨ih1, ih2, ih3⟩ :=
      ih (runEpoch fwd rexp adam valBatches e epochsTotal s (epochBatches e)).1
        (acc ++ (runEpoch fwd rexp adam valBatches e epochsTotal s
          (epochBatches e)).2)
    obtain ⟨e1, e2, e3⟩ :=
      runEpoch_spec fwd rexp adam valBatches e epochsTotal s (epochBatches e)
    refine ⟨?_, ?_, ?_⟩
    · rw [ih1, e1]; omega
    · rw [ih2, valCount_append, e2, e1]
      have hle1 : s.steps / 10 ≤ (s.steps + (epochBatches e).length) / 10 :=
        Nat.div_le_div_right (Nat.le_add_right _ _)
      have hle2 : (s.steps + (epochBatches e).length) / 10
          ≤ (s.steps + (epochBatches e).length
              + (es.map fun x => (epochBatches x).length).sum) / 10 :=
        Nat.div_le_div_right (Nat.le_add_right _ _)
      omega
    · rw [ih3, e3]

/-- C2: the periodic validation pass runs exactly when the global step
counter — initialized to 0 before the epoch loop, incremented once per
training batch, never reset — is divisible by 10: each batch emits a
validation pass precisely when the incremented counter hits a multiple of
10, and over a whole run of any epoch count the number of validation
passes is the total batch count divided by 10, independent of how the
batches are distributed over epoch boundaries. -/
theorem C2_validation_every_ten_global_steps
    (fwd : TorchModel → Nat → List ℚ) (rexp : ℚ → ℚ)
    (adam : Nat → TorchModel → List Sample → List ℚ)
    (epochBatches : Nat → List (List Sample))
    (valBatches : List (List Sample)) (m : TorchModel) (epochs : Nat) :
    (∀ e s b, (batchStep fwd rexp adam valBatches e epochs s b).1.steps
        = s.steps + 1)
    ∧ (∀ e s b, valCount (batchStep fwd rexp adam valBatches e epochs s b).2
        = if (s.steps + 1) % 10 = 0 then 1 else 0)
    ∧ valCount (train_model fwd rexp adam epochBatches valBatches m epochs).2
        = totalBatches epochBatches epochs / 10 := by
  refine ⟨fun e s b => batchStep_steps fwd rexp adam valBatches e epochs s b,
    fun e s b => batchStep_valCount fwd rexp adam valBatches e epochs s b, ?_⟩
  unfold train_model
  obtain ⟨-, h2, -⟩ := epochFold_spec fwd rexp adam epochBatches valBatches
    epochs (List.range epochs) ⟨0, 0, m⟩ []
  simpa [valCount, totalBatches] using h2

/-- C3: for either supported backbone name, every backbone parameter of the
assembled model has `requires_grad = false` (the freeze ran before the head
was attached), and since the optimizer was built over the classifier
parameters only, the backbone parameter list is unchanged after training
for any number of epochs. -/
theorem C3_backbone_never_updated
    (name : String) (densenetPre vggPre dHead vHead : List Param)
    (fwd : TorchModel → Nat → List ℚ) (rexp : ℚ → ℚ)
    (adam : Nat → TorchModel → List Sample → List ℚ)
    (epochBatches : Nat → List (List Sample))
    (valBatches : List (List Sample)) (epochs : Nat) (m0 : TorchModel)
    (hname : name = "densenet121" ∨ name = "vgg19")
    (hm : attachClassifier
      (selectModelAndClassifier name densenetPre vggPre dHead vHead)
        = .ok m0) :
    (∀ p ∈ m0.backbone, p.requires_grad = false)
    ∧ (train_model fwd rexp adam epochBatches valBatches m0 epochs).1.backbone
        = m0.backbone := by
  constructor
  · have hb : m0.backbone = freezeAll densenetPre
        ∨ m0.backbone = freezeAll vggPre := by
      rcases hname with hn | hn <;>
        · subst hn
          simp [selectModelAndClassifier, attachClassifier] at hm
          subst hm
          simp
    rcases hb with hb | hb <;>
      · rw [hb]
        intro p hp
        simp only [freezeAll, List.mem_map] at hp
        obtain ⟨q, -, hq⟩ := hp
        rw [← hq]
  · unfold train_model
    obtain ⟨-, -, h3⟩ := epochFold_spec fwd rexp adam epochBatches valBatches
      epochs (List.range epochs) ⟨0, 0, m0⟩ []
    exact h3

/-- Per-batch accuracy contribution lies in the unit interval. -/
theorem batchEqualityMean_unit (fwd : TorchModel → Nat → List ℚ)
    (rexp : ℚ → ℚ) (m : TorchModel) (b : List Sample) :
    0 ≤ batchEqualityMean fwd rexp m b
    ∧ batchEqualityMean fwd rexp m b ≤ 1 := by
  unfold batchEqualityMean
  exact ⟨div_nonneg (Nat.cast_nonneg _) (Nat.cast_nonneg _),
    div_le_one_of_le₀ (Nat.cast_le.mpr (List.length_filter_le _ _))
      (Nat.cast_nonneg _)⟩

/-- The accumulation loop of the validation pass equals the two mapped
sums, each divided by the batch count. -/
theorem validationPassStats_eq (fwd : TorchModel → Nat → List ℚ)
    (rexp : ℚ → ℚ) (m : TorchModel) (vbs : List (List Sample)) :
    validationPassStats fwd rexp m vbs
      = (((vbs.map fun b => nllLoss fwd m b).sum) / (vbs.length : ℚ),
         ((vbs.map fun b => batchEqualityMean fwd rexp m b).sum)
           / (vbs.length : ℚ)) := by
  unfold validationPassStats
  have hfold : ∀ (l : List (List Sample)) (a : ℚ × ℚ),
      l.foldl (fun a b =>
        (a.1 + nllLoss fwd m b, a.2 + batchEqualityMean fwd rexp m b)) a
        = (a.1 + (l.map fun b => nllLoss fwd m b).sum,
           a.2 + (l.map fun b => batchEqualityMean fwd rexp m b).sum) := by
    intro l
    induction l with
    | nil => intro a; simp
    | cons b l ih => intro a; simp [ih, add_assoc]
  rw [hfold]
  simp

/-- C7: for a validation pass over a non-empty loader, the reported
accuracy is the sum over batches of the per-batch mean equality (label
versus arg-max of the exponentiated output), divided by the number of
batches — a per-batch, not per-sample, average — and it lies in
`[0, 1]`. -/
theorem C7_validation_accuracy_unit_interval
    (fwd : TorchModel → Nat → List ℚ) (rexp : ℚ → ℚ) (m : TorchModel)
    (vbs : List (List Sample)) (hne : vbs ≠ []) :
    (validationPassStats fwd rexp m vbs).2
      = ((vbs.map fun b => batchEqualityMean fwd rexp m b).sum)
          / (vbs.length : ℚ)
    ∧ 0 ≤ (validationPassStats fwd rexp m vbs).2
    ∧ (validationPassStats fwd rexp m vbs).2 ≤ 1 := by
  have h2 : (validationPassStats fwd rexp m vbs).2
      = ((vbs.map fun b => batchEqualityMean fwd rexp m b).sum)
          / (vbs.length : ℚ) := by
    rw [validationPassStats_eq]
  refine ⟨h2, ?_, ?_⟩
  · rw [h2]
    apply div_nonneg ?_ (Nat.cast_nonneg _)
    apply List.sum_nonneg
    intro x hx
    obtain ⟨b, -, rfl⟩ := List.mem_map.mp hx
    exact (batchEqualityMean_unit fwd rexp m b).1
  · rw [h2]
    apply div_le_one_of_le₀ ?_ (Nat.cast_nonneg _)
    calc (vbs.map fun b => batchEqualityMean fwd rexp m b).sum
        ≤ (vbs.map fun b => batchEqualityMean fwd rexp m b).length • (1 : ℚ) :=
          List.sum_le_card_nsmul _ _ (by
            intro x hx
            obtain ⟨b, -, rfl⟩ := List.mem_map.mp hx
            exact (batchEqualityMean_unit fwd rexp m b).2)
      _ = (vbs.length : ℚ) := by simp

/-- C6: with an epoch count of 0, the training loop body never runs — the
model (head weights included) comes back exactly as it went in and the
trace is empty — yet the run still writes `checkpoint.pth`, with the full
checkpoint record built from the untouched model. -/
theorem C6_zero_epochs_checkpoint_still_written
    (fwd : TorchModel → Nat → List ℚ) (rexp : ℚ → ℚ)
    (adam : Nat → TorchModel → List Sample → List ℚ)
    (args : Args) (dirExists : Bool)
    (densenetPre vggPre dHead vHead : List Param)
    (classToIdx : List (String × Nat))
    (epochBatches : Nat → List (List Sample))
    (valBatches : List (List Sample)) (m0 : TorchModel) (r : MainResult)
    (hsel : attachClassifier
      (selectModelAndClassifier args.model densenetPre vggPre dHead vHead)
        = .ok m0)
    (hep : pyInt args.epochs = some 0)
    (h : mainRun fwd rexp adam args dirExists densenetPre vggPre dHead vHead
      classToIdx epochBatches valBatches = .ok r) :
    train_model fwd rexp adam epochBatches valBatches m0 0 = (m0, [])
    ∧ r.trace = []
    ∧ r.checkpoint.model = m0
    ∧ r.checkpoint.classifier = m0.classifier
    ∧ FsEffect.saveFile "checkpoint.pth" ∈ r.effects := by
  have htm : ∀ mm : TorchModel,
      train_model fwd rexp adam epochBatches valBatches mm 0 = (mm, []) := by
    intro mm
    rfl
  unfold mainRun at h
  rw [hsel, hep] at h
  simp only [Int.toNat_zero, Except.ok.injEq] at h
  subst h
  refine ⟨htm m0, ?_, ?_, ?_, ?_⟩
  · show (train_model fwd rexp adam epochBatches valBatches m0 0).2 = []
    rw [htm m0]
  · show (train_model fwd rexp adam epochBatches valBatches m0 0).1 = m0
    rw [htm m0]
  · show (train_model fwd rexp adam epochBatches
        valBatches m0 0).1.classifier = m0.classifier
    rw [htm m0]
  · cases dirExists <;> simp

/-- `mainRun` reads only `save_dir`, `model`, `lr` and `epochs` from the
parsed arguments: two argument records agreeing on those four fields
produce identical runs. -/
theorem mainRun_args_congr
    (fwd : TorchModel → Nat → List ℚ) (rexp : ℚ → ℚ)
    (adam : Nat → TorchModel → List Sample → List ℚ)
    (a b : Args) (dirExists : Bool)
    (densenetPre vggPre dHead vHead : List Param)
    (classToIdx : List (String × Nat))
    (epochBatches : Nat → List (List Sample))
    (valBatches : List (List Sample))
    (h1 : a.save_dir = b.save_dir) (h2 : a.model = b.model)
    (h3 : a.lr = b.lr) (h4 : a.epochs = b.epochs) :
    mainRun fwd rexp adam a dirExists densenetPre vggPre dHead vHead
      classToIdx epochBatches valBatches
    = mainRun fwd rexp adam b dirExists densenetPre vggPre dHead vHead
      classToIdx epochBatches valBatches := by
  cases a
  cases b
  simp only at h1 h2 h3 h4
  subst h1 h2 h3 h4
  rfl

/-- C8: `--hidden_units` is parsed into the argument record but never read
afterwards — two command lines that differ only in the `--hidden_units`
text produce byte-for-byte identical runs: same joined path, same model,
same trace, same checkpoint, same filesystem effects. -/
theorem C8_hidden_units_never_read
    (fwd : TorchModel → Nat → List ℚ) (rexp : ℚ → ℚ)
    (adam : Nat → TorchModel → List Sample → List ℚ)
    (cli : CliInput) (hu1 hu2 : Option String) (dirExists : Bool)
    (densenetPre vggPre dHead vHead : List Param)
    (classToIdx : List (String × Nat))
    (epochBatches : Nat → List (List Sample))
    (valBatches : List (List Sample)) :
    (get_arguments { cli with hidden_units_arg := hu1 }).hidden_units
      = storeArg hu1 (.int 512)
    ∧ mainRun fwd rexp adam (get_arguments { cli with hidden_units_arg := hu1 })
        dirExists densenetPre vggPre dHead vHead classToIdx epochBatches
        valBatches
      = mainRun fwd rexp adam
          (get_arguments { cli with hidden_units_arg := hu2 })
          dirExists densenetPre vggPre dHead vHead classToIdx epochBatches
          valBatches := by
  exact ⟨rfl, mainRun_args_congr fwd rexp adam _ _ dirExists densenetPre
    vggPre dHead vHead classToIdx epochBatches valBatches rfl rfl rfl rfl⟩

/-- C9: the running training loss is reset to 0 at the start of every
epoch (the epoch's outcome is independent of whatever running loss was
carried in), is reset again after every print, and every printed training
loss divides the accumulated value by the constant 10 — also when an epoch
boundary reset means fewer than 10 batches contributed since the last
reset. -/
theorem C9_running_loss_reset_and_div_by_ten
    (fwd : TorchModel → Nat → List ℚ) (rexp : ℚ → ℚ)
    (adam : Nat → TorchModel → List Sample → List ℚ)
    (valBatches : List (List Sample)) (e epochsTotal : Nat)
    (st : TrainState) (rl : ℚ) (bs : List (List Sample))
    (s : TrainState) (b : List Sample) :
    (runEpoch fwd rexp adam valBatches e epochsTotal
        { st with running_loss := rl } bs
      = runEpoch fwd rexp adam valBatches e epochsTotal st bs)
    ∧ ((batchStep fwd rexp adam valBatches e epochsTotal s b).1.running_loss
        = if (s.steps + 1) % 10 = 0 then 0
          else s.running_loss + nllLoss fwd s.model b)
    ∧ ((batchStep fwd rexp adam valBatches e epochsTotal s b).2
        = if (s.steps + 1) % 10 = 0 then
            [Ev.zeroGrad, Ev.forward, Ev.lossCompute (nllLoss fwd s.model b),
             Ev.backward, Ev.stepClassifier,
             Ev.accumulate (nllLoss fwd s.model b),
             Ev.validationPass
               (validationPassStats fwd rexp { s.model with classifier := adamApply s.model.classifier (adam (s.steps + 1) s.model b) } valBatches).1
               (validationPassStats fwd rexp { s.model with classifier := adamApply s.model.classifier (adam (s.steps + 1) s.model b) } valBatches).2,
             Ev.printStats (e + 1) epochsTotal
               ((s.running_loss + nllLoss fwd s.model b) / 10)
               (validationPassStats fwd rexp { s.model with classifier := adamApply s.model.classifier (adam (s.steps + 1) s.model b) } valBatches).1
               (validationPassStats fwd rexp { s.model with classifier := adamApply s.model.classifier (adam (s.steps + 1) s.model b) } valBatches).2,
             Ev.resetRunningLoss]
          else
            [Ev.zeroGrad, Ev.forward, Ev.lossCompute (nllLoss fwd s.model b),
             Ev.backward, Ev.stepClassifier,
             Ev.accumulate (nllLoss fwd s.model b)]) := by
  refine ⟨by cases st; rfl, ?_, ?_⟩ <;>
    · unfold batchStep
      by_cases hc : (s.steps + 1) % 10 = 0 <;> simp [hc]

/-- C10: argparse performs no numeric conversion on `--learning_rate`,
`--hidden_units` or `--epochs` (no `type=` is declared), so flag-supplied
values stay strings; the raw learning rate is handed unconverted to the
Adam constructor, the checkpoint stores the raw `epochs` and
`learning_rate` values, and only `epochs` undergoes an `int()` conversion
— at the `train_model` call site, so a successful run entails that the
conversion of the raw string succeeded. -/
theorem C10_argparse_values_stay_raw
    (fwd : TorchModel → Nat → List ℚ) (rexp : ℚ → ℚ)
    (adam : Nat → TorchModel → List Sample → List ℚ)
    (cli : CliInput) (slr shu sep : String) (dirExists : Bool)
    (densenetPre vggPre dHead vHead : List Param)
    (classToIdx : List (String × Nat))
    (epochBatches : Nat → List (List Sample))
    (valBatches : List (List Sample))
    (h1 : cli.lr_arg = some slr) (h2 : cli.hidden_units_arg = some shu)
    (h3 : cli.epochs_arg = some sep) :
    (get_arguments cli).lr = .str slr
    ∧ (get_arguments cli).hidden_units = .str shu
    ∧ (get_arguments cli).epochs = .str sep
    ∧ ∀ r : MainResult,
        mainRun fwd rexp adam (get_arguments cli) dirExists densenetPre
          vggPre dHead vHead classToIdx epochBatches valBatches = .ok r →
        r.optimizerLr = .str slr
        ∧ r.checkpoint.learning_rate = .str slr
        ∧ r.checkpoint.epochs = .str sep
        ∧ ∃ n : Int, pyInt (.str sep) = some n := by
  have ha : (get_arguments cli).lr = .str slr := by
    unfold get_arguments; rw [h1]; rfl
  have hb : (get_arguments cli).hidden_units = .str shu := by
    unfold get_arguments; rw [h2]; rfl
  have hc : (get_arguments cli).epochs = .str sep := by
    unfold get_arguments; rw [h3]; rfl
  refine ⟨ha, hb, hc, ?_⟩
  intro r h
  unfold mainRun at h
  cases hA : attachClassifier (selectModelAndClassifier
      (get_arguments cli).model densenetPre vggPre dHead vHead) with
  | error err => rw [hA] at h; exact absurd h (by simp)
  | ok model =>
    rw [hA] at h
    cases hE : pyInt (get_arguments cli).epochs with
    | none => rw [hE] at h; exact absurd h (by simp)
    | some n =>
      rw [hE] at h
      simp only [Except.ok.injEq] at h
      subst h
      exact ⟨ha, ha, hc, n, by rw [← hc]; exact hE⟩

/-! ## Witnesses -/

/-- Witness for C1 at a concrete completed run. -/
theorem C1_checkpoint_written_to_cwd_w :
    mainRun fwd0 rexp0 adam0 args0 true [⟨1, true⟩] [] [⟨2, true⟩] [] []
      eb0 [] = .ok r1fix
    ∧ (r1fix.effects
        = (if true then [] else [FsEffect.makedirs args0.save_dir])
          ++ [FsEffect.saveFile "checkpoint.pth"]
      ∧ r1fix.savePathVar = joinPath args0.save_dir "checkpoint.pth"
      ∧ (args0.save_dir ≠ "" → r1fix.savePathVar ≠ "checkpoint.pth")
      ∧ ∀ p, FsEffect.saveFile p ∈ r1fix.effects → p = "checkpoint.pth") :=
  ⟨by rfl, C1_checkpoint_written_to_cwd fwd0 rexp0 adam0 args0 true
    [⟨1, true⟩] [] [⟨2, true⟩] [] [] eb0 [] r1fix (by rfl)⟩

/-- Witness for C3 on the densenet121 branch with one backbone
parameter. -/
theorem C3_backbone_never_updated_w :
    (("densenet121" : String) = "densenet121"
      ∨ ("densenet121" : String) = "vgg19")
    ∧ attachClassifier (selectModelAndClassifier "densenet121" [⟨1, true⟩] []
        [⟨2, true⟩] []) = .ok m0fix
    ∧ ((∀ p ∈ m0fix.backbone, p.requires_grad = false)
      ∧ (train_model fwd0 rexp0 adam0 eb0 [] m0fix 3).1.backbone
          = m0fix.backbone) :=
  ⟨Or.inl rfl, rfl,
    C3_backbone_never_updated "densenet121" [⟨1, true⟩] [] [⟨2, true⟩] []
      fwd0 rexp0 adam0 eb0 [] 3 m0fix (Or.inl rfl) rfl⟩

/-- Witness for C4 at the unsupported backbone name `resnet50`. -/
theorem C4_unsupported_backbone_name_error_w :
    ({ args0 with model := "resnet50" } : Args).model ≠ "densenet121"
    ∧ ({ args0 with model := "resnet50" } : Args).model ≠ "vgg19"
    ∧ (selectModelAndClassifier
          ({ args0 with model := "resnet50" } : Args).model [⟨1, true⟩] []
          [⟨2, true⟩] [] = (none, none)
      ∧ attachClassifier (none, none) = .error (.nameError "classifier")
      ∧ mainRun fwd0 rexp0 adam0 { args0 with model := "resnet50" } true
          [⟨1, true⟩] [] [⟨2, true⟩] [] [] eb0 []
        = .error (.nameError "classifier")) :=
  ⟨by decide, by decide,
    C4_unsupported_backbone_name_error fwd0 rexp0 adam0
      { args0 with model := "resnet50" } true [⟨1, true⟩] [] [⟨2, true⟩] []
      [] eb0 [] (by decide) (by decide)⟩

/-- Witness for C6 at a concrete run with `epochs = 0`. -/
theorem C6_zero_epochs_checkpoint_still_written_w :
    attachClassifier (selectModelAndClassifier
        ({ args0 with epochs := .int 0 } : Args).model [⟨1, true⟩] []
        [⟨2, true⟩] []) = .ok m0fix
    ∧ pyInt ({ args0 with epochs := .int 0 } : Args).epochs = some 0
    ∧ mainRun fwd0 rexp0 adam0 { args0 with epochs := .int 0 } true
        [⟨1, true⟩] [] [⟨2, true⟩] [] [] eb0 [] = .ok r6fix
    ∧ (train_model fwd0 rexp0 adam0 eb0 [] m0fix 0 = (m0fix, [])
      ∧ r6fix.trace = []
      ∧ r6fix.checkpoint.model = m0fix
      ∧ r6fix.checkpoint.classifier = m0fix.classifier
      ∧ FsEffect.saveFile "checkpoint.pth" ∈ r6fix.effects) :=
  ⟨rfl, rfl, by rfl,
    C6_zero_epochs_checkpoint_still_written fwd0 rexp0 adam0
      { args0 with epochs := .int 0 } true [⟨1, true⟩] [] [⟨2, true⟩] [] []
      eb0 [] m0fix r6fix rfl rfl (by rfl)⟩

/-- Witness for C7 on a one-batch, one-sample validation loader. -/
theorem C7_validation_accuracy_unit_interval_w :
    ([[(⟨0, 0⟩ : Sample)]] ≠ ([] : List (List Sample)))
    ∧ ((validationPassStats fwd0 rexp0 m0fix [[⟨0, 0⟩]]).2
        = (([[(⟨0, 0⟩ : Sample)]].map fun b =>
            batchEqualityMean fwd0 rexp0 m0fix b).sum)
          / (([[(⟨0, 0⟩ : Sample)]] : List (List Sample)).length : ℚ)
      ∧ 0 ≤ (validationPassStats fwd0 rexp0 m0fix [[⟨0, 0⟩]]).2
      ∧ (validationPassStats fwd0 rexp0 m0fix [[⟨0, 0⟩]]).2 ≤ 1) :=
  ⟨by decide,
    C7_validation_accuracy_unit_interval fwd0 rexp0 m0fix [[⟨0, 0⟩]]
      (by decide)⟩

/-- Witness for C10 at a command line supplying all three numeric flags as
strings. -/
theorem C10_argparse_values_stay_raw_w :
    cliA.lr_arg = some "0.01"
    ∧ cliA.hidden_units_arg = some "256"
    ∧ cliA.epochs_arg = some "1"
    ∧ ((get_arguments cliA).lr = .str "0.01"
      ∧ (get_arguments cliA).hidden_units = .str "256"
      ∧ (get_arguments cliA).epochs = .str "1"
      ∧ ∀ r : MainResult,
          mainRun fwd0 rexp0 adam0 (get_arguments cliA) true [] [] [] [] []
            eb0 [] = .ok r →
          r.optimizerLr = .str "0.01"
          ∧ r.checkpoint.learning_rate = .str "0.01"
          ∧ r.checkpoint.epochs = .str "1"
          ∧ ∃ n : Int, pyInt (.str "1") = some n) :=
  ⟨rfl, rfl, rfl,
    C10_argparse_values_stay_raw fwd0 rexp0 adam0 cliA "0.01" "256" "1"
      true [] [] [] [] [] eb0 [] rfl rfl rfl⟩

end Train
